import Mathlib

/-!
# Verification of ai-chat-amplify against its specification

Shallow embedding of the frontend pipeline of the ai-chat-amplify
repository, together with proofs settling the frozen claims about it.

Embedded source files:
* `application/frontend/src/hooks/useUserRole.tsx` — role hierarchy and
  permission checks (`roleHierarchy`, `hasPermission`, `fetchUserRole`,
  `canRead`, `canWrite`, `isAdmin`);
* `application/frontend/lib/api-client.ts` — the keyword classifier
  `isPresentationRequest`;
* `application/frontend/components/ChatInterface.tsx` — `sendMessage`
  (message submission, single backend invocation, error surfacing) and
  `logAuditEvent` (best-effort audit write);
* `infrastructure/terraform/modules/pattern-analysis/main.tf` — declares the
  pattern-analyzer Lambda; its Python body is not in the repository snapshot,
  so the rejection-rate aggregate is modelled from the spec.

JavaScript strings are embedded as Lean `String`s; JS `null`/`undefined`
become `Option`; a `throw` becomes `Except.error`; `async` sequencing is
modelled by passing the outcome of each awaited external call as an
explicit argument. JS `toLowerCase`/`trim`/`includes` and the regexes used
by the classifier are defined below over `List Char`; the inputs involved
are ASCII, where `Char.toLower` agrees with JS `toLowerCase`.
-/

/-! ## JS string primitives -/

/-- The character class matched by JavaScript `\s` (and removed by
`String.prototype.trim`): ASCII whitespace, line terminators, NBSP, BOM and
the Unicode space separators. -/
def isJsSpace (c : Char) : Bool :=
  c = ' ' || c = '\t' || c = '\n' || c = '\r' || c = '\x0b' || c = '\x0c' ||
  c = '\u00A0' || c = '\u1680' || ('\u2000' ≤ c && c ≤ '\u200A') ||
  c = '\u2028' || c = '\u2029' || c = '\u202F' || c = '\u205F' ||
  c = '\u3000' || c = '\uFEFF'

/-- JS `String.prototype.trim`: strip leading and trailing whitespace. -/
def jsTrim (s : String) : String :=
  String.mk (((s.toList.dropWhile isJsSpace).reverse.dropWhile isJsSpace).reverse)

/-- `isPrefixL n h` : the list `n` is a prefix of `h` (by `==` on `Char`). -/
def isPrefixL : List Char → List Char → Bool
  | [], _ => true
  | _ :: _, [] => false
  | a :: as, b :: bs => a == b && isPrefixL as bs

/-- `isInfixL n h` : the list `n` occurs contiguously inside `h`. -/
def isInfixL (n : List Char) : List Char → Bool
  | [] => isPrefixL n []
  | c :: cs => isPrefixL n (c :: cs) || isInfixL n cs

/-- JS `String.prototype.includes`. -/
def jsIncludes (s sub : String) : Bool :=
  isInfixL sub.toList s.toList

/-- JS `String.prototype.toLowerCase` (agrees with it on ASCII input). -/
def jsToLowerCase (s : String) : String :=
  String.mk (s.toList.map Char.toLower)

/-- JS `\d`: an ASCII decimal digit. -/
def isJsDigit (c : Char) : Bool :=
  '0' ≤ c && c ≤ '9'

/-! ## `api-client.ts` : the intent classifier `isPresentationRequest` -/

/-- Case-insensitive literal match: `dropMatchCI pat cs` returns the rest of
`cs` after consuming `pat` (a lowercase pattern) at its front, comparing each
input character lowercased, or `none` when `pat` does not match there. -/
def dropMatchCI : List Char → List Char → Option (List Char)
  | [], cs => some cs
  | _ :: _, [] => none
  | p :: ps, c :: cs => if c.toLower == p then dropMatchCI ps cs else none

/-- One anchored attempt of the regex `slide\s+\d+` (flag `i`) at the front
of the input: the literal `slide`, then one or more `\s`, then a `\d`. -/
def slideNumAt (cs : List Char) : Bool :=
  match dropMatchCI "slide".toList cs with
  | none => false
  | some rest =>
    let ws := rest.takeWhile isJsSpace
    let rest2 := rest.dropWhile isJsSpace
    !ws.isEmpty &&
      (match rest2 with
       | [] => false
       | d :: _ => isJsDigit d)

/-- The regex test `/slide\s+\d+/i.test(message)`: an unanchored search,
trying `slideNumAt` at every position of the input. -/
def slideNumberPatternTest : List Char → Bool
  | [] => false
  | c :: cs => slideNumAt (c :: cs) || slideNumberPatternTest cs

/-- `slideKeywords` from `isPresentationRequest` in `api-client.ts`. -/
def slideKeywords : List String :=
  ["slide", "powerpoint", "ppt", "presentation"]

/-- `actionKeywords` from `isPresentationRequest` in `api-client.ts`. -/
def actionKeywords : List String :=
  ["create", "generate", "make", "design", "build", "update", "modify", "edit"]

/-- `isPresentationRequest` from `api-client.ts`: true when the message
matches `slide\s+\d+` case-insensitively, or contains (lowercased) both a
slide keyword and an action keyword. -/
def isPresentationRequest (message : String) : Bool :=
  let lowerMessage := jsToLowerCase message
  if slideNumberPatternTest message.toList then
    true
  else
    let hasSlideKeyword := slideKeywords.any fun keyword => jsIncludes lowerMessage keyword
    let hasActionKeyword := actionKeywords.any fun keyword => jsIncludes lowerMessage keyword
    hasSlideKeyword && hasActionKeyword

/-! ## `useUserRole.tsx` : roles and permissions -/

/-- The three non-null values of the TS union `UserRole`; the TS `null` is
`Option.none` on the Lean side. -/
inductive UserRole
  | Admin
  | WriteAccess
  | ReadOnly
deriving DecidableEq, Fintype, Repr

/-- `roleHierarchy` from `useUserRole.tsx` (the `null: 0` entry of the TS
record is unreachable: `hasPermission` returns before indexing with null). -/
def roleHierarchy : UserRole → Nat
  | .Admin => 3
  | .WriteAccess => 2
  | .ReadOnly => 1

/-- `hasPermission` from `useUserRole.tsx`: false when either the current
role or the required role is null, otherwise compare hierarchy levels. -/
def hasPermission (role requiredRole : Option UserRole) : Bool :=
  match role, requiredRole with
  | some r, some rq => roleHierarchy rq ≤ roleHierarchy r
  | _, _ => false

/-- `canRead` from `useUserRole.tsx`: `hasPermission('ReadOnly')`. -/
def canRead (role : Option UserRole) : Bool :=
  hasPermission role (some .ReadOnly)

/-- `canWrite` from `useUserRole.tsx`: `hasPermission('WriteAccess')`. -/
def canWrite (role : Option UserRole) : Bool :=
  hasPermission role (some .WriteAccess)

/-- `isAdmin` from `useUserRole.tsx`: `role === 'Admin'`. -/
def isAdmin (role : Option UserRole) : Bool :=
  role == some UserRole.Admin

/-- The spec's reading of the permission gate, for comparison with the
code's `hasPermission`: both roles non-null and the numeric level of the
user's role at least the numeric level of the required role. -/
def hasPermissionSpec (role requiredRole : Option UserRole) : Bool :=
  role.isSome && requiredRole.isSome &&
    decide ((requiredRole.map roleHierarchy).getD 0 ≤ (role.map roleHierarchy).getD 0)

/-- `fetchUserRole` from `useUserRole.tsx`. Its two awaited effects are
passed in as one argument: `Except.error` when `Auth.currentAuthenticatedUser()`
throws (the catch branch sets the role to null), otherwise the optional
`cognito:groups` claim of the session (`none` models an absent claim, which
the source defaults to `[]`). An authenticated user with none of the three
group names defaults to ReadOnly. -/
def fetchUserRole (auth : Except String (Option (List String))) : Option UserRole :=
  match auth with
  | .error _ => none
  | .ok groupsOpt =>
    let groups := groupsOpt.getD []
    if groups.contains "Admin" then some .Admin
    else if groups.contains "WriteAccess" then some .WriteAccess
    else if groups.contains "ReadOnly" then some .ReadOnly
    else some .ReadOnly


/-! ## `ChatInterface.tsx` : messages, `sendMessage`, `logAuditEvent` -/

/-- The two values of the TS union `'user' | 'assistant'`. -/
inductive ChatRole
  | user
  | assistant
deriving DecidableEq, Repr

/-- The `Message` interface of `ChatInterface.tsx` (the `Date` timestamp is
kept as the value of `Date.now()` in milliseconds). -/
structure Message where
  id : String
  role : ChatRole
  content : String
  timestampMs : Nat
  files : Option (List String)
deriving DecidableEq, Repr

/-- The `UploadedFile` interface of `ChatInterface.tsx` (only the fields
`sendMessage` reads). -/
structure UploadedFile where
  name : String
  key : String
  size : Nat
deriving DecidableEq, Repr

/-- The component state touched by `sendMessage`: the `messages`, `input`,
`isLoading` and `uploadedFiles` `useState` cells. -/
structure ChatState where
  messages : List Message
  input : String
  isLoading : Bool
  uploadedFiles : List UploadedFile
deriving DecidableEq, Repr

/-- The JSON shape `sendMessage` reads off the multi-agent API response
(fields absent from the JSON are `none`). -/
structure AgentResult where
  message : Option String
  agent : Option String
  presentation_name : Option String
  download_url : Option String
  files_analyzed : Option Nat
  tools_used : Option (List String)
  routed_to : Option String
deriving DecidableEq, Repr

/-- JS truthiness of an optional string: null/undefined and `""` are falsy. -/
def jsTruthyStr : Option String → Bool
  | none => false
  | some s => !(s = "")

/-- JS truthiness of an optional number: null/undefined and `0` are falsy. -/
def jsTruthyNat : Option Nat → Bool
  | none => false
  | some n => !(n = 0)

/-- JS `a || b` for an optional string with a string fallback. -/
def jsOrElse (o : Option String) (d : String) : String :=
  match o with
  | some s => if s = "" then d else s
  | none => d

/-- The response-formatting block of `sendMessage` (`ChatInterface.tsx`
lines 243–274): builds `responseContent` from the agent result; `devMode`
is `process.env.NODE_ENV === 'development'`. -/
def formatResponse (devMode : Bool) (result : AgentResult) : String :=
  let responseContent := result.message.getD ""
  let responseContent :=
    if result.agent == some "presentation" && jsTruthyStr result.presentation_name then
      let rc := responseContent ++ "\n\n📊 **Presentation Ready**: " ++
        result.presentation_name.getD ""
      if jsTruthyStr result.download_url then
        rc ++ "\n[Download Now](" ++ result.download_url.getD "" ++ ")"
      else rc
    else if result.agent == some "document" then
      let rc := "📄 **Document Analysis**\n\n" ++ responseContent
      if jsTruthyNat result.files_analyzed then
        rc ++ "\n\n*Analyzed " ++ toString (result.files_analyzed.getD 0) ++ " file(s)*"
      else rc
    else if result.agent == some "chat" then
      "💬 " ++ responseContent
    else if result.agent == some "simple-orchestrator" then
      match result.tools_used with
      | some tools =>
        if 0 < tools.length then
          responseContent ++ "\n\n*Tools used: " ++ String.intercalate ", " tools ++ "*"
        else responseContent
      | none => responseContent
    else if result.agent == some "langchain-orchestrator" then
      match result.tools_used with
      | some tools =>
        if 0 < tools.length then
          responseContent ++ "\n\n*AI Tools: " ++ String.intercalate ", " tools ++ "*"
        else responseContent
      | none => responseContent
    else responseContent
  if devMode then
    responseContent ++ "\n\n*[Routed to: " ++ jsOrElse result.routed_to "unknown" ++ " agent]*"
  else responseContent

/-- The fixed assistant message shown by the catch branch of `sendMessage`. -/
def sendMessageErrorText : String :=
  "Sorry, an error occurred while processing your request. Please make sure you have access to AWS Bedrock Claude models in the eu-west-1 region."

/-- `sendMessage` from `ChatInterface.tsx` (lines 219–299). `now` is the
value of `Date.now()`; `backend` is the outcome of the single awaited call
`generatePresentation(userMessage.content, uploadedFiles, useLangChain)` —
`Except.error` when it (or anything else inside the `try`) throws. Returns
the new component state together with the number of backend invocations
this call performed. The early return fires when the trimmed input is empty
(JS falsy) and no files are attached. On success the assistant message is
appended and the uploaded files are cleared; on error a fixed error message
is appended (files are not cleared); `isLoading` is reset in `finally`. -/
def sendMessage (devMode : Bool) (now : Nat) (st : ChatState)
    (backend : Except String AgentResult) : ChatState × Nat :=
  if jsTrim st.input == "" && st.uploadedFiles.isEmpty then
    (st, 0)
  else
    let userMessage : Message :=
      { id := toString now
        role := .user
        content := st.input
        timestampMs := now
        files := some (st.uploadedFiles.map (·.key)) }
    let st := { st with
      messages := st.messages ++ [userMessage]
      input := ""
      isLoading := true }
    match backend with
    | .ok result =>
      let assistantMessage : Message :=
        { id := toString (now + 1)
          role := .assistant
          content := formatResponse devMode result
          timestampMs := now
          files := none }
      ({ st with
          messages := st.messages ++ [assistantMessage]
          uploadedFiles := []
          isLoading := false }, 1)
    | .error _ =>
      let errorMessage : Message :=
        { id := toString (now + 1)
          role := .assistant
          content := sendMessageErrorText
          timestampMs := now
          files := none }
      ({ st with
          messages := st.messages ++ [errorMessage]
          isLoading := false }, 1)

/-- Modelled from the spec: the default `max_attempts` of the retry bound
(`Default max_attempts = 3; configurable per deployment, immutable at
runtime once loaded`). The orchestrator backend holding this configuration
is not part of the repository snapshot; only the frontend caller is. -/
def maxAttempts : Nat := 3

/-! ### `logAuditEvent` -/

/-- The part of a `fetch` Response that `logAuditEvent` reads. -/
structure HttpResponse where
  ok : Bool
  statusText : String
deriving DecidableEq, Repr

/-- What a call to `logAuditEvent` did: completed the POST with a 2xx
response, warned on a non-ok response (`console.warn('Failed to log audit
event:', ...)`), or warned in the catch branch (`console.warn('Error
logging audit event:', ...)`). -/
inductive AuditOutcome
  | logged
  | warnedNotOk (statusText : String)
  | warnedError (err : String)
deriving DecidableEq, Repr

/-- Whether the audit write failed (non-2xx response or a thrown error). -/
def auditWriteFailed : AuditOutcome → Bool
  | .logged => false
  | .warnedNotOk _ => true
  | .warnedError _ => true

/-- The observable result of one `logAuditEvent` call. Besides the outcome
it records the effects the spec ascribes to a failed audit write, so that
their presence or absence is checkable: `queuedForRetry` holds entries
retained for background redelivery, and `auditDegraded` is the
"audit-degraded" marking of the pipeline response. The source performs
neither effect, so the embedding below sets them to `[]` and `false` on
every path. -/
structure AuditCallResult where
  outcome : AuditOutcome
  queuedForRetry : List String
  auditDegraded : Bool
deriving DecidableEq, Repr

/-- The `try` block of `logAuditEvent` (`ChatInterface.tsx` lines 171–193):
await `fetchAuthSession()` (its thrown error is the `Except.error`), read
the optional id token, await the POST to `/audit`, and warn when the
response is not ok. -/
def logAuditEventBody (fetchSession : Except String (Option String))
    (post : Option String → Except String HttpResponse) : Except String AuditOutcome := do
  let token ← fetchSession
  let response ← post token
  if response.ok then
    pure .logged
  else
    pure (.warnedNotOk response.statusText)

/-- `logAuditEvent` from `ChatInterface.tsx` (lines 170–197): the body
wrapped in the `catch` branch, which only logs a console warning — it
rethrows nothing, queues nothing for retry, and flags nothing. The result
stays in the caller's `Except` monad so that an uncaught throw would abort
the caller. -/
def logAuditEvent (fetchSession : Except String (Option String))
    (post : Option String → Except String HttpResponse) : Except String AuditCallResult :=
  match logAuditEventBody fetchSession post with
  | .ok o => .ok { outcome := o, queuedForRetry := [], auditDegraded := false }
  | .error e => .ok { outcome := .warnedError e, queuedForRetry := [], auditDegraded := false }

/-! ## Pattern Analyzer (modelled from the spec) -/

/-- The request kinds of the spec's data model (`kind ∈ {Presentation,
Document, Financial, Chat, Unclassified}` — the analyzer groups by the
agent kinds). -/
inductive RequestKind
  | Presentation
  | Document
  | Financial
  | Chat
deriving DecidableEq, Repr

/-- One audit-log record as seen by the Pattern Analyzer: the agent kind of
the attempt and whether it failed. -/
structure AuditKindRecord where
  kind : RequestKind
  failed : Bool
deriving DecidableEq, Repr

/-- Modelled from the spec: the Pattern Analyzer's rejection-rate aggregate
(`grouping by agent_kind and outcome, computing aggregates (rejection rate
per kind, ...)`). The Lambda body `pattern_analyzer.py` is only packaged by
`modules/pattern-analysis/main.tf` and is absent from the repository
snapshot, so the aggregate is taken at the spec's words: the rejection rate
of a kind over a window is the number of failed attempts of that kind
divided by the total number of attempts of that kind. -/
def rejectionRate (kind : RequestKind) (window : List AuditKindRecord) : ℚ :=
  let entries := window.filter fun r => r.kind == kind
  let failures := entries.filter fun r => r.failed
  if entries.length = 0 then 0
  else (failures.length : ℚ) / (entries.length : ℚ)

/-- The audit window of the spec's Scenario E: 10 Presentation successes
and 8 Document attempts of which 5 failed. -/
def scenarioEWindow : List AuditKindRecord :=
  List.replicate 10 { kind := .Presentation, failed := false } ++
  List.replicate 5 { kind := .Document, failed := true } ++
  List.replicate 3 { kind := .Document, failed := false }

/-! ## Claims -/

/-- Claim C1: for every request submitted through the chat interface, one
call to `sendMessage` performs at most one invocation of the multi-agent
backend, so the attempt count never exceeds the spec's configured
`max_attempts` (default 3). -/
theorem sendMessage_at_most_one_invocation (devMode : Bool) (now : Nat)
    (st : ChatState) (backend : Except String AgentResult) :
    (sendMessage devMode now st backend).2 ≤ 1 ∧
    (sendMessage devMode now st backend).2 ≤ maxAttempts := by
  cases backend <;> simp only [sendMessage, maxAttempts] <;> split <;> simp

/-- Claim C2: the classifier maps "create a 10 slide deck about Q2 results"
to a presentation request, and does so via the keyword path: the lowercased
text contains both a slide keyword and an action keyword. -/
theorem scenarioA_classified_as_presentation :
    isPresentationRequest "create a 10 slide deck about Q2 results" = true ∧
    (slideKeywords.any fun keyword =>
      jsIncludes (jsToLowerCase "create a 10 slide deck about Q2 results") keyword) = true ∧
    (actionKeywords.any fun keyword =>
      jsIncludes (jsToLowerCase "create a 10 slide deck about Q2 results") keyword) = true := by
  decide

/-- Claim C3: `logAuditEvent` never propagates an error to its caller —
whatever the session fetch and the POST to the audit endpoint do, the call
returns normally and an enclosing operation still delivers its own result
to the caller. -/
theorem logAuditEvent_never_propagates (fetchSession : Except String (Option String))
    (post : Option String → Except String HttpResponse) (callerResult : String) :
    (∃ r, logAuditEvent fetchSession post = .ok r) ∧
    (do let _ ← logAuditEvent fetchSession post
        pure callerResult : Except String String) = .ok callerResult := by
  unfold logAuditEvent
  cases h : logAuditEventBody fetchSession post <;>
    exact ⟨⟨_, rfl⟩, rfl⟩

/-- Claim C4 counterexample: a failed audit write (non-2xx response from
the audit endpoint) neither retains the entry for later redelivery nor
marks the response "audit-degraded" — refuting the claim that every failed
audit call does both. -/
theorem logAuditEvent_failure_not_queued_cex :
    ¬ (∀ (fetchSession : Except String (Option String))
         (post : Option String → Except String HttpResponse)
         (r : AuditCallResult),
         logAuditEvent fetchSession post = .ok r →
         auditWriteFailed r.outcome = true →
         r.queuedForRetry ≠ [] ∧ r.auditDegraded = true) := by
  intro h
  have := h (.ok (some "token"))
    (fun _ => .ok { ok := false, statusText := "Internal Server Error" })
    { outcome := .warnedNotOk "Internal Server Error"
      queuedForRetry := []
      auditDegraded := false }
    rfl rfl
  exact this.1 rfl

/-- Claim C4 as amended: every call to `logAuditEvent` — failed or not —
returns normally with no entry retained for redelivery and no
audit-degraded flag on the response; a failed write only produces a console
warning. -/
theorem logAuditEvent_failure_only_warns (fetchSession : Except String (Option String))
    (post : Option String → Except String HttpResponse) :
    ∃ r, logAuditEvent fetchSession post = .ok r ∧
      r.queuedForRetry = [] ∧ r.auditDegraded = false := by
  unfold logAuditEvent
  cases h : logAuditEventBody fetchSession post <;> exact ⟨_, rfl, rfl, rfl⟩

/-- Claim C5: `hasPermission` agrees with the spec's total order on roles
(true iff both roles are non-null and the user's numeric level is at least
the required level), `canWrite` holds exactly for Admin and WriteAccess,
and `isAdmin` holds exactly for Admin. -/
theorem hasPermission_matches_role_order :
    ∀ role requiredRole : Option UserRole,
      hasPermission role requiredRole = hasPermissionSpec role requiredRole ∧
      (canWrite role = true ↔ role = some .Admin ∨ role = some .WriteAccess) ∧
      (isAdmin role = true ↔ role = some .Admin) := by
  decide

/-- Claim C6: the caller-visible failure output of `sendMessage` does not
depend on the internal exception — any two distinct errors produce
identical resulting states, and the surfaced assistant message is the fixed
error text. -/
theorem sendMessage_error_output_uniform (devMode : Bool) (now : Nat)
    (st : ChatState) (e₁ e₂ : String) (_h : e₁ ≠ e₂) :
    sendMessage devMode now st (.error e₁) = sendMessage devMode now st (.error e₂) ∧
    ((jsTrim st.input == "" && st.uploadedFiles.isEmpty) = false →
      ((sendMessage devMode now st (.error e₁)).1.messages.getLast?.map Message.content =
        some sendMessageErrorText)) := by
  constructor
  · rfl
  · intro hguard
    simp [sendMessage, hguard]

/-- Claim C6 witness: two concrete distinct backend errors yield the same
caller-visible state. -/
theorem sendMessage_error_output_uniform_witness :
    sendMessage false 0
        { messages := [], input := "hi", isLoading := false, uploadedFiles := [] }
        (.error "network down") =
      sendMessage false 0
        { messages := [], input := "hi", isLoading := false, uploadedFiles := [] }
        (.error "TypeError: fetch failed") :=
  (sendMessage_error_output_uniform false 0
    { messages := [], input := "hi", isLoading := false, uploadedFiles := [] }
    "network down" "TypeError: fetch failed" (by decide)).1

/-- Claim C7: the intent classifier is idempotent for identical input —
evaluating it any number of times on the same message yields the same
classification every time. -/
theorem isPresentationRequest_idempotent (m : String) (n : Nat) :
    (List.replicate n m).map isPresentationRequest =
      List.replicate n (isPresentationRequest m) := by
  simp

/-- Claim C8: over the Scenario E audit window (10 Presentation successes,
8 Document attempts of which 5 failed) the rejection-rate aggregate is
exactly 0.0 for Presentation and exactly 0.625 for Document. -/
theorem scenarioE_rejection_rates :
    rejectionRate .Presentation scenarioEWindow = 0 ∧
    rejectionRate .Document scenarioEWindow = 0.625 := by
  have hp : ((scenarioEWindow.filter fun r => r.kind == RequestKind.Presentation)).length = 10 := by
    decide
  have hpf : (((scenarioEWindow.filter fun r =>
      r.kind == RequestKind.Presentation)).filter fun r => r.failed).length = 0 := by
    decide
  have hd : ((scenarioEWindow.filter fun r => r.kind == RequestKind.Document)).length = 8 := by
    decide
  have hdf : (((scenarioEWindow.filter fun r =>
      r.kind == RequestKind.Document)).filter fun r => r.failed).length = 5 := by
    decide
  constructor
  · simp only [rejectionRate]
    rw [hp, hpf]
    norm_num
  · simp only [rejectionRate]
    rw [hd, hdf]
    norm_num

/-- Claim C9: submitting an empty request is a no-op — when the trimmed
input is empty and no files are attached, `sendMessage` returns the state
unchanged and performs zero backend invocations. -/
theorem sendMessage_empty_input_noop (devMode : Bool) (now : Nat)
    (st : ChatState) (backend : Except String AgentResult)
    (h1 : jsTrim st.input = "") (h2 : st.uploadedFiles = []) :
    sendMessage devMode now st backend = (st, 0) := by
  simp [sendMessage, h1, h2]

/-- Claim C9 witness: a whitespace-only input with no attached files leaves
the state untouched and invokes no backend. -/
theorem sendMessage_empty_input_noop_witness :
    sendMessage false 0
        { messages := [], input := "   ", isLoading := false, uploadedFiles := [] }
        (.error "unreachable") =
      ({ messages := [], input := "   ", isLoading := false, uploadedFiles := [] }, 0) :=
  sendMessage_empty_input_noop false 0
    { messages := [], input := "   ", isLoading := false, uploadedFiles := [] }
    (.error "unreachable") (by decide) rfl

/-- Claim C10: an authenticated user whose group list names none of Admin,
WriteAccess or ReadOnly resolves to ReadOnly; every authenticated user's
resolved role can read; a failed user fetch resolves to the null role, for
which `hasPermission` refuses every requirement. -/
theorem fetchUserRole_defaults_and_failure :
    (∀ groups : List String,
        "Admin" ∉ groups →
        "WriteAccess" ∉ groups →
        "ReadOnly" ∉ groups →
        fetchUserRole (.ok (some groups)) = some .ReadOnly) ∧
    (∀ g : Option (List String), ∃ r : UserRole,
        fetchUserRole (.ok g) = some r ∧ canRead (some r) = true) ∧
    (∀ e : String, fetchUserRole (.error e) = none) ∧
    (∀ rq : Option UserRole, hasPermission none rq = false) := by
  refine ⟨?_, ?_, ?_, ?_⟩
  · intro groups h1 h2 h3
    simp [fetchUserRole, h1, h2, h3]
  · intro g
    simp only [fetchUserRole]
    split
    · exact ⟨_, rfl, by decide⟩
    · split
      · exact ⟨_, rfl, by decide⟩
      · split
        · exact ⟨_, rfl, by decide⟩
        · exact ⟨_, rfl, by decide⟩
  · intro e
    rfl
  · intro rq
    cases rq <;> rfl

/-- Claim C10 witness: a user in only the group "Developers" resolves to
ReadOnly, and with a null role even the lowest requirement is refused. -/
theorem fetchUserRole_defaults_and_failure_witness :
    fetchUserRole (.ok (some ["Developers"])) = some .ReadOnly ∧
    hasPermission none (some .ReadOnly) = false :=
  ⟨fetchUserRole_defaults_and_failure.1 ["Developers"] (by decide) (by decide) (by decide),
   fetchUserRole_defaults_and_failure.2.2.2 (some .ReadOnly)⟩
